import Mathlib

/-!
Verification of the Switchtec diagnostic command layer (`lib/diag.c`).

The C functions under study issue framed request/response exchanges over a
synchronous command channel (`switchtec_cmd`).  We embed each function as a
pure Lean function over an explicit device environment: the environment gives,
for the k-th `switchtec_cmd` call made by the function, the integer return
code and the decoded contents of the response buffer the device would have
filled in.  Each embedded function also produces the trace of requests it
issued, so that sequencing properties (which requests were sent, in which
order, and which were suppressed by an early error return) are provable.

Machine integers are modelled as `Nat` with explicit `% 2^w` reductions where
the C code narrows a value (uint8 / uint16 / uint32 / uint64 fields); C `int`
return codes are modelled as `Int`.  C `double` arithmetic is modelled with
exact rationals `ℚ`; the C `nan("")` produced on division by zero is modelled
by `Option ℚ` with `none` standing for the not-a-number result.
-/

/-! ## LTSSM log retrieval (`switchtec_diag_ltssm_log_gen4` / `_gen5`) -/

/-- One request sent on `MRPC_DIAG_PORT_LTSSM_LOG`.  `freeze port f` is the
freeze/unfreeze request (`sub_cmd` 14, `freeze` field `f`; `f = 1` freezes,
`f = 0` unfreezes), `status port` the entry-count query (sub_cmd 13 on Gen4,
20 on Gen5), `dump port idx n` the chunked log dump (sub_cmd 15 on Gen4, 21
on Gen5) starting at `log_index = idx` with `no_of_logs = n`. -/
inductive LtssmReq where
  | freeze (port f : Nat)
  | status (port : Nat)
  | dump (port logIndex noOfLogs : Nat)
deriving DecidableEq, Repr

/-- One decoded entry of `struct switchtec_diag_ltssm_log`.  The C struct
stores `link_rate` as a float obtained by indexing the global table
`switchtec_gen_transfers` (defined outside `lib/diag.c`); we record the index
used for that lookup (`rate + 1`, preserving the off-by-one convention). -/
structure LtssmEntry where
  timestamp : Nat
  timestampHigh : Nat
  linkRateIdx : Nat
  linkState : Nat
deriving DecidableEq, Repr

/-- One 8-byte Gen4 wire record of the log dump response (`dw0`, `dw1`). -/
structure Gen4Rec where
  dw0 : Nat
  dw1 : Nat
deriving DecidableEq, Repr

/-- One 16-byte Gen5 wire record (`struct log_buffer`): dword 0 packs
`rx_10s:3, minor:4, major:6, link_rate:3, rlov:1`, dword 1 is `time_stamp`,
dword 2 packs `ts_high:5`, dword 3 is `cond`. -/
structure Gen5Rec where
  dw0 : Nat
  dw1 : Nat
  dw2 : Nat
  dw3 : Nat
deriving DecidableEq, Repr

/-- Gen4 bit extraction `major = (dw0 >> 7) & 0xf`. -/
def gen4_major (dw0 : Nat) : Nat := (dw0 >>> 7) % 16

/-- Gen4 bit extraction `minor = (dw0 >> 3) & 0xf`. -/
def gen4_minor (dw0 : Nat) : Nat := (dw0 >>> 3) % 16

/-- Gen4 bit extraction `rate = (dw0 >> 13) & 0x3`. -/
def gen4_rate (dw0 : Nat) : Nat := (dw0 >>> 13) % 4

/-- Gen5 bit-field `major:6` at bit 7 of dword 0. -/
def gen5_major (dw0 : Nat) : Nat := (dw0 >>> 7) % 64

/-- Gen5 bit-field `minor:4` at bit 3 of dword 0. -/
def gen5_minor (dw0 : Nat) : Nat := (dw0 >>> 3) % 16

/-- Gen5 bit-field `link_rate:3` at bit 13 of dword 0. -/
def gen5_rate (dw0 : Nat) : Nat := (dw0 >>> 13) % 8

/-- Decode one Gen4 record exactly as the loop body of
`switchtec_diag_ltssm_log_gen4` does: 26-bit timestamp from `dw1`, zero
`timestamp_high`, rate index `rate + 1`, and
`link_state = major | (minor << 8)`. -/
def gen4_decode (r : Gen4Rec) : LtssmEntry :=
  ⟨r.dw1 % 67108864, 0, gen4_rate r.dw0 + 1,
    gen4_major r.dw0 ||| (gen4_minor r.dw0 <<< 8)⟩

/-- Decode one Gen5 record exactly as the loop body of
`switchtec_diag_ltssm_log_gen5` does: 32-bit timestamp, 5-bit
`timestamp_high`, rate index `link_rate + 1`, and
`link_state = major | (minor << 8)`. -/
def gen5_decode (r : Gen5Rec) : LtssmEntry :=
  ⟨r.dw1 % 4294967296, r.dw2 % 32, gen5_rate r.dw0 + 1,
    gen5_major r.dw0 ||| (gen5_minor r.dw0 <<< 8)⟩

/-- Device-side environment for one run of the Gen4 LTSSM log function:
`ret k` is the return code of the k-th `switchtec_cmd` call, `logNum` the
`log_num` byte of the status response (a `uint8_t` field, reduced mod 256 at
use), and `dump k i` the i-th 8-byte record of the dump response to call
number `k`. -/
structure Gen4Env where
  ret : Nat → Int
  logNum : Nat
  dump : Nat → Nat → Gen4Rec

/-- Device-side environment for one run of the Gen5 LTSSM log function:
`trigCnt` is the `trig_cnt` field of the status response (a `uint16_t`,
reduced mod 65536 at use). -/
structure Gen5Env where
  ret : Nat → Int
  trigCnt : Nat
  dump : Nat → Nat → Gen5Rec

/-- Result of an LTSSM log call: overall return code, final `*log_count`,
the entries written to `log_data` (in index order, starting at 0), and the
trace of requests issued. -/
structure LtssmResult where
  ret : Int
  logCount : Nat
  entries : List LtssmEntry
  trace : List LtssmReq

/-- `*log_count` after the clamp
`if (status_output.log_num < *log_count) *log_count = status_output.log_num`. -/
def gen4ClampedCount (env : Gen4Env) (count : Nat) : Nat :=
  if env.logNum % 256 < count then env.logNum % 256 else count

/-- `*log_count` after the clamp
`if (status_output.trig_cnt < *log_count) *log_count = status_output.trig_cnt`. -/
def gen5ClampedCount (env : Gen5Env) (count : Nat) : Nat :=
  if env.trigCnt % 65536 < count then env.trigCnt % 65536 else count

/-- Embedding of `switchtec_diag_ltssm_log_gen4` (lib/diag.c:1310-1422).
Call 0 freezes the log, call 1 queries the entry count; the clamped count is
dumped in one chunk when it is at most 126, otherwise in exactly two chunks
of 126 and `n - 126` entries, and the records are decoded and the unfreeze
request sent; every failing `switchtec_cmd` makes the function return that
code immediately. -/
def switchtec_diag_ltssm_log_gen4 (env : Gen4Env) (port count : Nat) :
    LtssmResult :=
  if env.ret 0 ≠ 0 then
    ⟨env.ret 0, count, [], [LtssmReq.freeze port 1]⟩
  else if env.ret 1 ≠ 0 then
    ⟨env.ret 1, count, [], [LtssmReq.freeze port 1, LtssmReq.status port]⟩
  else
    let n := gen4ClampedCount env count
    if n ≤ 126 then
      if env.ret 2 ≠ 0 then
        ⟨env.ret 2, n, [],
          [LtssmReq.freeze port 1, LtssmReq.status port,
           LtssmReq.dump port 0 n]⟩
      else
        ⟨env.ret 3, n,
          (List.range n).map (fun i => gen4_decode (env.dump 2 i)),
          [LtssmReq.freeze port 1, LtssmReq.status port,
           LtssmReq.dump port 0 n, LtssmReq.freeze port 0]⟩
    else
      if env.ret 2 ≠ 0 then
        ⟨env.ret 2, n, [],
          [LtssmReq.freeze port 1, LtssmReq.status port,
           LtssmReq.dump port 0 126]⟩
      else if env.ret 3 ≠ 0 then
        ⟨env.ret 3, n, [],
          [LtssmReq.freeze port 1, LtssmReq.status port,
           LtssmReq.dump port 0 126, LtssmReq.dump port 126 (n - 126)]⟩
      else
        ⟨env.ret 4, n,
          (List.range n).map (fun i =>
            gen4_decode (if i < 126 then env.dump 2 i
                         else env.dump 3 (i - 126))),
          [LtssmReq.freeze port 1, LtssmReq.status port,
           LtssmReq.dump port 0 126, LtssmReq.dump port 126 (n - 126),
           LtssmReq.freeze port 0]⟩

/-- `#define MAX_LOG_READ 63` (lib/diag.c:1425). -/
def MAX_LOG_READ : Nat := 63

/-- The Gen5 dump loop (`while (avail_log > 0) { ... }` in
`switchtec_diag_ltssm_log_gen5`).  Arguments: remaining fuel, next command
index `k`, `cur_idx`, `avail_log`.  Returns the command index after the loop,
the entries decoded, and the dump requests issued.  The loop consumes at
least one unit of `avail_log` per iteration, so fuel equal to the initial
`avail_log` is always sufficient: with that fuel the `fuel = 0` base case is
reached only when `avail_log = 0`, where it agrees with the loop exit. -/
def gen5_loop (env : Gen5Env) (port : Nat) :
    Nat → Nat → Nat → Nat → Nat × List LtssmEntry × List LtssmReq
  | 0, k, _, _ => (k, [], [])
  | fuel + 1, k, curIdx, avail =>
    if avail = 0 then (k, [], [])
    else
      let no := min avail MAX_LOG_READ
      if env.ret k ≠ 0 then
        (k + 1, [], [LtssmReq.dump port curIdx no])
      else
        let chunk := (List.range no).map (fun i => gen5_decode (env.dump k i))
        if no < avail then
          let rest := gen5_loop env port fuel (k + 1) (curIdx + no) (avail - no)
          (rest.1, chunk ++ rest.2.1, LtssmReq.dump port curIdx no :: rest.2.2)
        else
          (k + 1, chunk, [LtssmReq.dump port curIdx no])

/-- Embedding of `switchtec_diag_ltssm_log_gen5` (lib/diag.c:1436-1573).
Freeze (call 0) and status (call 1) failures return immediately; afterwards
the clamped count is dumped in chunks of at most `MAX_LOG_READ` entries.  A
failing dump chunk only breaks out of the loop; the unfreeze request is then
sent unconditionally and its return code becomes the overall result. -/
def switchtec_diag_ltssm_log_gen5 (env : Gen5Env) (port count : Nat) :
    LtssmResult :=
  if env.ret 0 ≠ 0 then
    ⟨env.ret 0, count, [], [LtssmReq.freeze port 1]⟩
  else if env.ret 1 ≠ 0 then
    ⟨env.ret 1, count, [], [LtssmReq.freeze port 1, LtssmReq.status port]⟩
  else
    let n := gen5ClampedCount env count
    let res := gen5_loop env port n 2 0 n
    ⟨env.ret res.1, n, res.2.1,
      LtssmReq.freeze port 1 :: LtssmReq.status port ::
        (res.2.2 ++ [LtssmReq.freeze port 0])⟩

/-- The `(log_index, no_of_logs)` arguments of the dump requests in a trace,
in order. -/
def dumpCalls : List LtssmReq → List (Nat × Nat)
  | [] => []
  | LtssmReq.dump _ idx n :: rest => (idx, n) :: dumpCalls rest
  | _ :: rest => dumpCalls rest

/-- Spec-side chunk schedule (refinement reference, written from the spec's
words, not from the code): chunk calls of size `min(remaining, MAX_LOG_READ)`
at strictly increasing indices until the requested count is exhausted.  The
fuel argument is only a structural-recursion bound; any fuel at least equal
to `remaining` yields the full schedule. -/
def chunkSchedule : Nat → Nat → Nat → List (Nat × Nat)
  | 0, _, _ => []
  | fuel + 1, idx, remaining =>
    if remaining = 0 then []
    else
      (idx, min remaining MAX_LOG_READ) ::
        chunkSchedule fuel (idx + min remaining MAX_LOG_READ)
          (remaining - min remaining MAX_LOG_READ)

/-! ## Eye capture (`switchtec_diag_eye_fetch` and numeric codecs) -/

/-- `hi_lo_to_uint64` (lib/diag.c:222-231): `ret = hi; ret <<= 32; ret |= lo`
on 32-bit little-endian wire fields (`le32toh` is the identity on the decoded
values we model). -/
def hi_lo_to_uint64 (lo hi : Nat) : Nat :=
  ((hi % 4294967296) <<< 32) ||| (lo % 4294967296)

/-- One raw-mode pixel record of the fetch response: the four 32-bit wire
fields `error_cnt_lo/hi` and `sample_cnt_lo/hi`. -/
structure RawPix where
  errLo : Nat
  errHi : Nat
  sampLo : Nat
  sampHi : Nat

/-- Raw-mode pixel decode (lib/diag.c:281-290): `errors / samples` as a C
double, with `nan("")` (modelled `none`) when `samples` is zero. -/
def rawPixelVal (p : RawPix) : Option ℚ :=
  let errors := hi_lo_to_uint64 p.errLo p.errHi
  let samples := hi_lo_to_uint64 p.sampLo p.sampHi
  if samples ≠ 0 then some ((errors : ℚ) / (samples : ℚ)) else none

/-- Ratio-mode pixel decode (lib/diag.c:292): `le32toh(ratio) / 65536.`. -/
def ratioPixelVal (u : Nat) : ℚ := ((u % 4294967296 : Nat) : ℚ) / 65536

/-- Gen5 BER decode (lib/diag.c:412):
`le64toh(ber_data[i]) / 281474976710656.` (the divisor is `2^48`). -/
def berVal (v : Nat) : ℚ :=
  ((v % 18446744073709551616 : Nat) : ℚ) / 281474976710656

/-- `ffs` from `<strings.h>` on a bounded word: 1-based position of the least
significant set bit, 0 when the argument is 0.  The fuel argument (32 at the
call sites, matching the `uint32_t` mask words) bounds the recursion. -/
def ffsAux : Nat → Nat → Nat
  | 0, _ => 0
  | fuel + 1, x =>
    if x = 0 then 0
    else if x % 2 = 1 then 1
    else ffsAux fuel (x / 2) + 1

/-- `ffs` on a `uint32_t` value. -/
def ffs (x : Nat) : Nat := ffsAux 32 (x % 4294967296)

/-- The lane-id scan of `switchtec_diag_eye_fetch` (lib/diag.c:271-275):
`*lane_id = ffs(out.lane_mask[i])` for `i = 0..3`, stopping at the first
nonzero result; 0 when all four mask words are zero. -/
def fetchLaneId (m : Fin 4 → Nat) : Nat :=
  if ffs (m 0) ≠ 0 then ffs (m 0)
  else if ffs (m 1) ≠ 0 then ffs (m 1)
  else if ffs (m 2) ≠ 0 then ffs (m 2)
  else ffs (m 3)

/-- The two values of `enum switchtec_diag_eye_data_mode` that the decode
switch of `switchtec_diag_eye_fetch` handles (`SWITCHTEC_DIAG_EYE_RAW` and
`SWITCHTEC_DIAG_EYE_RATIO`). -/
inductive EyeMode where
  | raw
  | ratio
deriving DecidableEq, Repr

/-- The errno values assigned by `switchtec_diag_eye_status`
(lib/diag.c:130-144) for a nonzero non-busy device status: 2 → `EINVAL`,
3 → `EBUSY`, anything else → `EPROTO`. -/
inductive EyeErrno where
  | einval
  | ebusy
  | eproto
deriving DecidableEq, Repr

/-- The status-to-errno mapping of `switchtec_diag_eye_status` for a nonzero
non-busy status byte. -/
def eyeStatusErrno (status : Nat) : EyeErrno :=
  if status = 2 then EyeErrno.einval
  else if status = 3 then EyeErrno.ebusy
  else EyeErrno.eproto

/-- Decoded contents of one fetch attempt: the `switchtec_cmd` return code
and the fields of `struct switchtec_diag_port_eye_fetch` that the function
reads (`status`, the four `uint32_t` lane-mask words, the two `uint8_t`
data-count bytes, the data mode, and the per-pixel payload words). -/
structure EyeResp where
  cmdRet : Int
  status : Nat
  laneMask : Fin 4 → Nat
  dataCountLo : Nat
  dataCountHi : Nat
  dataMode : EyeMode
  raw : Nat → RawPix
  ratio : Nat → Nat

/-- `data_count = out.data_count_lo | ((int)out.data_count_hi << 8)`
(lib/diag.c:277), on `uint8_t` wire bytes. -/
def eyeDataCount (r : EyeResp) : Nat :=
  (r.dataCountLo % 256) ||| ((r.dataCountHi % 256) <<< 8)

/-- The per-pixel decode switch of `switchtec_diag_eye_fetch`
(lib/diag.c:279-295). -/
def decodePixel (r : EyeResp) (i : Nat) : Option ℚ :=
  match r.dataMode with
  | EyeMode.raw => rawPixelVal (r.raw i)
  | EyeMode.ratio => some (ratioPixelVal (r.ratio i))

/-- Result of `switchtec_diag_eye_fetch`: an error return from
`switchtec_cmd`, an error mapped from a nonzero non-busy status, or success
carrying the returned `data_count`, the reported lane id, and the pixel
values written to the caller's buffer (in index order). -/
inductive FetchResult where
  | cmdErr (ret : Int)
  | statusErr (e : EyeErrno)
  | ok (dataCount laneId : Nat) (pixels : List (Option ℚ))
deriving DecidableEq

/-- Embedding of `switchtec_diag_eye_fetch` (lib/diag.c:246-298).  The
environment gives the outcome of each retry attempt; attempt `a` whose
response has `status == 1` sleeps and retries with attempt `a + 1`.  The C
retry loop is unbounded, so the embedding carries fuel and yields `none`
when every attempt within fuel was busy.  On success, pixels
`0 ≤ i < min data_count pixel_cnt` are decoded into the buffer and the full
`data_count` is returned. -/
def eye_fetch_loop (env : Nat → EyeResp) (pixelCnt : Nat) :
    Nat → Nat → Option FetchResult
  | 0, _ => none
  | fuel + 1, attempt =>
    let r := env attempt
    if r.cmdRet ≠ 0 then some (FetchResult.cmdErr r.cmdRet)
    else if r.status = 1 then eye_fetch_loop env pixelCnt fuel (attempt + 1)
    else if r.status ≠ 0 then some (FetchResult.statusErr (eyeStatusErrno r.status))
    else
      some (FetchResult.ok (eyeDataCount r) (fetchLaneId r.laneMask)
        ((List.range (min (eyeDataCount r) pixelCnt)).map (decodePixel r)))

/-- `switchtec_diag_eye_fetch`, started at attempt 0. -/
def switchtec_diag_eye_fetch (env : Nat → EyeResp) (pixelCnt fuel : Nat) :
    Option FetchResult :=
  eye_fetch_loop env pixelCnt fuel 0

/-! ## Loopback set (`switchtec_diag_loopback_set`) -/

/-- The internal-loopback direction selector (`DIAG_LOOPBACK_RX_TO_TX` /
`DIAG_LOOPBACK_TX_TO_RX`). -/
inductive LoopType where
  | rxToTx
  | txToRx
deriving DecidableEq, Repr

/-- One request issued by the loopback functions: an internal-loopback
sub-command carrying a direction and an enable flag, or the LTSSM-loopback
sub-command carrying an enable flag and the speed. -/
inductive LoopbackReq where
  | intLoopback (portId : Nat) (ty : LoopType) (enable : Bool)
  | ltssmLoopback (portId : Nat) (enable : Bool) (speed : Nat)
deriving DecidableEq, Repr

/-- Modelled from the spec: the bit flags of
`enum switchtec_diag_loopback_enable` (`RX_TO_TX`, `TX_TO_RX`, `LTSSM`)
are declared in the public header `switchtec/diag.h`, which is not part of
the source tree under study; they are distinct single-bit flags that can be
or'd together. -/
def SWITCHTEC_DIAG_LOOPBACK_RX_TO_TX : Nat := 1

/-- Modelled from the spec: see `SWITCHTEC_DIAG_LOOPBACK_RX_TO_TX`. -/
def SWITCHTEC_DIAG_LOOPBACK_TX_TO_RX : Nat := 2

/-- Modelled from the spec: see `SWITCHTEC_DIAG_LOOPBACK_RX_TO_TX`. -/
def SWITCHTEC_DIAG_LOOPBACK_LTSSM : Nat := 4

/-- Embedding of `switchtec_diag_loopback_set` (lib/diag.c:428-466): three
sub-requests in the fixed order RX→TX internal loopback, TX→RX internal
loopback, LTSSM loopback, each with the `!!`-normalized boolean of its flag
in `enable`; the first failing `switchtec_cmd` return code is returned and
the remaining requests are not sent.  `env k` is the return code of the k-th
call. -/
def switchtec_diag_loopback_set (env : Nat → Int)
    (portId enable speed : Nat) : Int × List LoopbackReq :=
  let r1 := LoopbackReq.intLoopback portId LoopType.rxToTx
    ((enable &&& SWITCHTEC_DIAG_LOOPBACK_RX_TO_TX) != 0)
  let r2 := LoopbackReq.intLoopback portId LoopType.txToRx
    ((enable &&& SWITCHTEC_DIAG_LOOPBACK_TX_TO_RX) != 0)
  let r3 := LoopbackReq.ltssmLoopback portId
    ((enable &&& SWITCHTEC_DIAG_LOOPBACK_LTSSM) != 0) speed
  if env 0 ≠ 0 then (env 0, [r1])
  else if env 1 ≠ 0 then (env 1, [r1, r2])
  else if env 2 ≠ 0 then (env 2, [r1, r2, r3])
  else (0, [r1, r2, r3])

/-! ## Generation dispatch of the equalization retrievers -/

/-- Modelled from the spec: the generation tag of a device handle.
`switchtec_is_gen4` / `switchtec_is_gen5` are defined outside `lib/diag.c`;
per the spec they are mutually exclusive classifiers, and a handle may be
neither. -/
inductive SwitchtecGen where
  | gen4
  | gen5
  | unknown
deriving DecidableEq, Repr

/-- Modelled from the spec: `switchtec_is_gen4`. -/
def switchtec_is_gen4 : SwitchtecGen → Bool
  | SwitchtecGen.gen4 => true
  | _ => false

/-- Modelled from the spec: `switchtec_is_gen5`. -/
def switchtec_is_gen5 : SwitchtecGen → Bool
  | SwitchtecGen.gen5 => true
  | _ => false

/-- A framed request on the command channel: primary opcode plus sub-command
byte.  Used only to express that the unsupported-generation paths of the
equalization dispatchers issue no request at all. -/
structure MrpcReq where
  opcode : Nat
  subCmd : Nat
deriving DecidableEq, Repr

/-- Embedding of the dispatcher `switchtec_diag_port_eq_tx_coeff`
(lib/diag.c:893-908): `ret` starts at `-1`; the Gen5 or Gen4 strategy is
invoked only on a matching generation, and on any other generation the
initial `-1` is returned with no command issued.  The behavior of the two
strategy functions (return code and request trace) is passed in as a
parameter, since the dispatcher returns whatever the selected strategy
produces. -/
def switchtec_diag_port_eq_tx_coeff (dev : SwitchtecGen)
    (gen5Res gen4Res : Int × List MrpcReq) : Int × List MrpcReq :=
  if switchtec_is_gen5 dev then gen5Res
  else if switchtec_is_gen4 dev then gen4Res
  else (-1, [])

/-- Embedding of the dispatcher `switchtec_diag_port_eq_tx_table`
(lib/diag.c:1034-1050); same shape as `switchtec_diag_port_eq_tx_coeff`. -/
def switchtec_diag_port_eq_tx_table (dev : SwitchtecGen)
    (gen5Res gen4Res : Int × List MrpcReq) : Int × List MrpcReq :=
  if switchtec_is_gen5 dev then gen5Res
  else if switchtec_is_gen4 dev then gen4Res
  else (-1, [])

/-- Embedding of the dispatcher `switchtec_diag_port_eq_tx_fslf`
(lib/diag.c:1182-1198); same shape as `switchtec_diag_port_eq_tx_coeff`. -/
def switchtec_diag_port_eq_tx_fslf (dev : SwitchtecGen)
    (gen5Res gen4Res : Int × List MrpcReq) : Int × List MrpcReq :=
  if switchtec_is_gen5 dev then gen5Res
  else if switchtec_is_gen4 dev then gen4Res
  else (-1, [])

/-! ## Concrete device environments used in closed instantiations -/

/-- Gen5 environment: freeze and status succeed (`trig_cnt = 10`), the first
dump chunk call fails with `-1`, every later call succeeds. -/
def c1CexEnv : Gen5Env := ⟨fun k => if k = 2 then -1 else 0, 10, fun _ _ => ⟨0, 0, 0, 0⟩⟩

/-- Gen4 environment: the dump call (call 2) fails with `-3`, all other
calls succeed; the status response reports 200 available entries. -/
def c1WitG4Env : Gen4Env := ⟨fun k => if k = 2 then -3 else 0, 200, fun _ _ => ⟨0, 0⟩⟩

/-- Gen5 environment with every call succeeding and `trig_cnt = 5`. -/
def c1WitG5Env : Gen5Env := ⟨fun _ => 0, 5, fun _ _ => ⟨0, 0, 0, 0⟩⟩

/-- Fetch response: success, lane-mask word 0 = 1, `data_count = 5`, ratio
mode, every ratio word 65536 (value 1.0). -/
def c2WitResp : EyeResp :=
  ⟨0, 0, fun _ => 1, 5, 0, EyeMode.ratio, fun _ => ⟨0, 0, 0, 0⟩, fun _ => 65536⟩

/-- Every fetch attempt yields `c2WitResp`. -/
def c2WitEnv : Nat → EyeResp := fun _ => c2WitResp

/-- Command channel where the first call succeeds and every later call
fails with `-7`. -/
def c4WitEnv : Nat → Int := fun k => if k = 0 then 0 else -7

/-- Gen4 environment: every call succeeds, status reports 255 entries. -/
def c5WitEnv : Gen4Env := ⟨fun _ => 0, 255, fun _ _ => ⟨0, 0⟩⟩

/-- Gen5 environment: every call succeeds, status reports 200 entries. -/
def c6WitEnv : Gen5Env := ⟨fun _ => 0, 200, fun _ _ => ⟨0, 0, 0, 0⟩⟩

/-- Fetch response with `status = 1` (device busy). -/
def c9BusyResp : EyeResp :=
  ⟨0, 1, fun _ => 0, 0, 0, EyeMode.ratio, fun _ => ⟨0, 0, 0, 0⟩, fun _ => 0⟩

/-- Successful fetch response: lane-mask word 0 has bit 2 set (the mask for
lane 2), `data_count = 10`, ratio mode, every ratio word 65536
(value 1.0). -/
def c9DoneResp : EyeResp :=
  ⟨0, 0, fun i => if i = 0 then 4 else 0, 10, 0, EyeMode.ratio,
    fun _ => ⟨0, 0, 0, 0⟩, fun _ => 65536⟩

/-- Fetch attempt 0 is busy, every later attempt is `c9DoneResp`. -/
def c9Env : Nat → EyeResp := fun a => if a = 0 then c9BusyResp else c9DoneResp

/-- The ten ratio pixels decoded from `c9DoneResp`. -/
def c9Pixels : List (Option ℚ) := List.replicate 10 (some 1)

/-- Gen5 environment: freeze and status succeed (`trig_cnt = 200`), the
first dump chunk call fails with `-5`, the unfreeze call succeeds. -/
def c10WitEnv : Gen5Env := ⟨fun k => if k = 2 then -5 else 0, 200, fun _ _ => ⟨0, 0, 0, 0⟩⟩

/-! ## Helper lemmas -/

theorem getLast?_cons_cons_append {α : Type} (a b : α) (l : List α) (c : α) :
    (a :: b :: (l ++ [c])).getLast? = some c := by
  have h : a :: b :: (l ++ [c]) = (a :: b :: l) ++ [c] := by simp
  rw [h, List.getLast?_concat]

theorem dumpCalls_append (l1 l2 : List LtssmReq) :
    dumpCalls (l1 ++ l2) = dumpCalls l1 ++ dumpCalls l2 := by
  induction l1 with
  | nil => rfl
  | cons h t ih => cases h <;> simp [dumpCalls, ih]

theorem chunkSchedule_zero (fuel idx : Nat) : chunkSchedule fuel idx 0 = [] := by
  cases fuel <;> simp [chunkSchedule]

/-- When the dump loop runs at least one iteration and that iteration's
command fails, the loop stops after the single failed request. -/
theorem gen5_loop_fail_first (env : Gen5Env) (port fuel k curIdx avail : Nat)
    (hf : fuel ≠ 0) (ha : avail ≠ 0) (hk : env.ret k ≠ 0) :
    gen5_loop env port fuel k curIdx avail =
      (k + 1, [], [LtssmReq.dump port curIdx (min avail MAX_LOG_READ)]) := by
  cases fuel with
  | zero => exact absurd rfl hf
  | succ m => simp [gen5_loop, ha, hk]

/-- When every command succeeds, the dump loop issues exactly the spec-side
chunk schedule and decodes one entry per requested log. -/
theorem gen5_loop_ok (env : Gen5Env) (port : Nat) (hall : ∀ k, env.ret k = 0) :
    ∀ fuel k curIdx avail, avail ≤ fuel →
      dumpCalls (gen5_loop env port fuel k curIdx avail).2.2 =
        chunkSchedule fuel curIdx avail ∧
      (gen5_loop env port fuel k curIdx avail).2.1.length = avail := by
  intro fuel
  induction fuel with
  | zero =>
    intro k c a ha
    have : a = 0 := Nat.le_zero.mp ha
    subst this
    exact ⟨rfl, rfl⟩
  | succ m ih =>
    intro k c a ha
    by_cases h0 : a = 0
    · subst h0
      simp [gen5_loop, chunkSchedule, dumpCalls]
    · have hk := hall k
      have hmin : 1 ≤ min a MAX_LOG_READ := by
        simp only [MAX_LOG_READ]
        omega
      by_cases hlt : min a MAX_LOG_READ < a
      · have hrec := ih (k + 1) (c + min a MAX_LOG_READ) (a - min a MAX_LOG_READ)
          (by omega)
        simp only [gen5_loop, chunkSchedule, h0, if_neg h0, hk]
        simp only [ne_eq, not_true_eq_false, if_false, if_pos hlt,
          not_false_eq_true, if_true]
        constructor
        · simp [dumpCalls, hrec.1]
        · simp [hrec.2]
      · have heq : min a MAX_LOG_READ = a := by omega
        simp only [gen5_loop, chunkSchedule, h0, if_neg h0, hk]
        simp only [ne_eq, not_true_eq_false, if_false, if_neg hlt]
        constructor
        · simp [dumpCalls, heq, chunkSchedule_zero]
        · simp [heq]

/-- Bit-disjoint or is addition: `(a <<< n) ||| b = a * 2 ^ n + b` for
`b < 2 ^ n`. -/
theorem lor_high_low {n a b : Nat} (hb : b < 2 ^ n) :
    (a <<< n) ||| b = a * 2 ^ n + b := by
  apply Nat.eq_of_testBit_eq
  intro i
  rw [Nat.shiftLeft_eq]
  rw [mul_comm a (2 ^ n)]
  rw [Nat.testBit_or, Nat.testBit_mul_pow_two_add a hb i, Nat.testBit_mul_pow_two]
  by_cases h : i < n
  · have hge : ¬ i ≥ n := by omega
    simp [h, hge]
  · have hbf : b.testBit i = false :=
      Nat.testBit_lt_two_pow
        (lt_of_lt_of_le hb (Nat.pow_le_pow_right (by norm_num) (by omega)))
    simp [h, hbf]
    omega

/-- `hi_lo_to_uint64` assembles the two 32-bit halves into
`hi * 2^32 + lo`. -/
theorem hi_lo_to_uint64_eq {lo hi : Nat} (hlo : lo < 4294967296)
    (hhi : hi < 4294967296) :
    hi_lo_to_uint64 lo hi = hi * 4294967296 + lo := by
  have h32 : (4294967296 : Nat) = 2 ^ 32 := by norm_num
  unfold hi_lo_to_uint64
  rw [Nat.mod_eq_of_lt hlo, Nat.mod_eq_of_lt hhi]
  rw [h32] at hlo ⊢
  exact lor_high_low hlo

/-! ## Claim theorems -/

/-- C1 (counterexample): the claim says that for both generations a
dump-stage chunk failure after a successful freeze aborts without sending an
unfreeze request. In the Gen5 path this is false: with freeze and status
succeeding and the dump chunk call failing (`c1CexEnv`), the trace still ends
with the unfreeze request `freeze 3 0`, and the overall result is the
unfreeze status `0`, not the dump failure. -/
theorem c1_counterexample :
    c1CexEnv.ret 0 = 0 ∧ c1CexEnv.ret 1 = 0 ∧ c1CexEnv.ret 2 ≠ 0 ∧
    (switchtec_diag_ltssm_log_gen5 c1CexEnv 3 10).trace =
      [LtssmReq.freeze 3 1, LtssmReq.status 3, LtssmReq.dump 3 0 10,
       LtssmReq.freeze 3 0] ∧
    (switchtec_diag_ltssm_log_gen5 c1CexEnv 3 10).ret = 0 := by
  decide

/-- C1 (amended): in the Gen4 LTSSM log retrieval, a dump-stage chunk
failure after a successful freeze aborts without sending an unfreeze request
(leaving the log frozen), and the unconditional unfreeze request — whose
status becomes the overall result — is sent only after a successful dump.
In the Gen5 retrieval, however, a dump-chunk failure only breaks out of the
dump loop: whenever freeze and status succeed, the unfreeze request is
always sent as the final request, dump failures included. -/
theorem c1_ltssm_unfreeze_pairing (g4 : Gen4Env) (g5 : Gen5Env)
    (p4 c4 p5 c5 : Nat)
    (h0 : g4.ret 0 = 0) (h1 : g4.ret 1 = 0)
    (k0 : g5.ret 0 = 0) (k1 : g5.ret 1 = 0) :
    (g4.ret 2 ≠ 0 →
      (switchtec_diag_ltssm_log_gen4 g4 p4 c4).ret = g4.ret 2 ∧
      LtssmReq.freeze p4 0 ∉ (switchtec_diag_ltssm_log_gen4 g4 p4 c4).trace) ∧
    (g4.ret 2 = 0 → g4.ret 3 ≠ 0 → 126 < gen4ClampedCount g4 c4 →
      (switchtec_diag_ltssm_log_gen4 g4 p4 c4).ret = g4.ret 3 ∧
      LtssmReq.freeze p4 0 ∉ (switchtec_diag_ltssm_log_gen4 g4 p4 c4).trace) ∧
    (g4.ret 2 = 0 → gen4ClampedCount g4 c4 ≤ 126 →
      (switchtec_diag_ltssm_log_gen4 g4 p4 c4).ret = g4.ret 3 ∧
      (switchtec_diag_ltssm_log_gen4 g4 p4 c4).trace.getLast? =
        some (LtssmReq.freeze p4 0)) ∧
    (g4.ret 2 = 0 → g4.ret 3 = 0 → 126 < gen4ClampedCount g4 c4 →
      (switchtec_diag_ltssm_log_gen4 g4 p4 c4).ret = g4.ret 4 ∧
      (switchtec_diag_ltssm_log_gen4 g4 p4 c4).trace.getLast? =
        some (LtssmReq.freeze p4 0)) ∧
    (switchtec_diag_ltssm_log_gen5 g5 p5 c5).trace.getLast? =
      some (LtssmReq.freeze p5 0) := by
  refine ⟨?_, ?_, ?_, ?_, ?_⟩
  · intro h2
    by_cases hn : gen4ClampedCount g4 c4 ≤ 126 <;>
      simp [switchtec_diag_ltssm_log_gen4, h0, h1, h2, hn]
  · intro h2 h3 hn
    simp [switchtec_diag_ltssm_log_gen4, h0, h1, h2, h3, Nat.not_le.mpr hn]
  · intro h2 hn
    simp [switchtec_diag_ltssm_log_gen4, h0, h1, h2, hn]
  · intro h2 h3 hn
    simp [switchtec_diag_ltssm_log_gen4, h0, h1, h2, h3, Nat.not_le.mpr hn]
  · simp only [switchtec_diag_ltssm_log_gen5, k0, k1]
    simp only [ne_eq, not_true_eq_false, if_false]
    exact getLast?_cons_cons_append _ _ _ _

/-- C1 (amended, witness): concrete instantiation — the Gen4 run whose dump
call fails with `-3` returns `-3` and never sends the unfreeze request,
while a fully successful Gen5 run ends with the unfreeze request. -/
theorem c1_ltssm_unfreeze_pairing_witness :
    ((switchtec_diag_ltssm_log_gen4 c1WitG4Env 1 200).ret = -3 ∧
      LtssmReq.freeze 1 0 ∉ (switchtec_diag_ltssm_log_gen4 c1WitG4Env 1 200).trace) ∧
    (switchtec_diag_ltssm_log_gen5 c1WitG5Env 2 7).trace.getLast? =
      some (LtssmReq.freeze 2 0) := by
  have h := c1_ltssm_unfreeze_pairing c1WitG4Env c1WitG5Env 1 200 2 7
    rfl rfl rfl rfl
  have h2 := h.1 (by decide)
  exact ⟨⟨h2.1.trans (by decide), h2.2⟩, h.2.2.2.2⟩

/-- C3 (counterexample): the claim says `link_state = major << 8 | minor`.
At the Gen4 wire record `dw0 = 0x90` (major = 1, minor = 2) the code
produces `major | (minor << 8) = 0x201`, not `0x102`; the Gen5 decode of the
same dword 0 disagrees with the claim in the same way. -/
theorem c3_counterexample :
    (gen4_decode ⟨144, 0⟩).linkState ≠ (gen4_major 144 <<< 8) ||| gen4_minor 144 ∧
    (gen5_decode ⟨144, 0, 0, 0⟩).linkState ≠
      (gen5_major 144 <<< 8) ||| gen5_minor 144 := by
  decide

/-- C3 (amended): for every decoded LTSSM log entry (Gen4 and Gen5), the
`link_state` field equals `major | (minor << 8)` — the major state in the
low byte and the minor state shifted into the high byte — where major and
minor are the state fields extracted from the wire record. -/
theorem c3_link_state_packing (r : Gen4Rec) (s : Gen5Rec) :
    (gen4_decode r).linkState = gen4_major r.dw0 ||| (gen4_minor r.dw0 <<< 8) ∧
    (gen5_decode s).linkState = gen5_major s.dw0 ||| (gen5_minor s.dw0 <<< 8) :=
  ⟨rfl, rfl⟩

/-- C2: for every successful eye-capture fetch (command succeeds and device
status 0 on the first attempt), the function returns the full reported
`data_count` even when it exceeds the buffer capacity `pixel_cnt`, and
writes exactly `min data_count pixel_cnt` pixel entries; in particular a
capacity smaller than the reported count writes exactly `pixel_cnt`
entries. -/
theorem c2_eye_fetch_truncation (env : Nat → EyeResp) (pixelCnt fuel : Nat)
    (h1 : (env 0).cmdRet = 0) (h2 : (env 0).status = 0) :
    switchtec_diag_eye_fetch env pixelCnt (fuel + 1) =
      some (FetchResult.ok (eyeDataCount (env 0)) (fetchLaneId (env 0).laneMask)
        ((List.range (min (eyeDataCount (env 0)) pixelCnt)).map
          (decodePixel (env 0)))) ∧
    ((List.range (min (eyeDataCount (env 0)) pixelCnt)).map
      (decodePixel (env 0))).length = min (eyeDataCount (env 0)) pixelCnt ∧
    (pixelCnt < eyeDataCount (env 0) →
      ((List.range (min (eyeDataCount (env 0)) pixelCnt)).map
        (decodePixel (env 0))).length = pixelCnt) := by
  refine ⟨?_, by simp, fun h => by simp [Nat.min_eq_right (Nat.le_of_lt h)]⟩
  simp [switchtec_diag_eye_fetch, eye_fetch_loop, h1, h2]

/-- C2 (witness): a fetch whose response reports `data_count = 5` into a
buffer of capacity 4 (capacity = reported count − 1) returns 5 and writes
exactly the 4 decoded ratio pixels. -/
theorem c2_eye_fetch_truncation_witness :
    switchtec_diag_eye_fetch c2WitEnv 4 1 =
      some (FetchResult.ok 5 1 [some 1, some 1, some 1, some 1]) := by
  have h := c2_eye_fetch_truncation c2WitEnv 4 0 rfl rfl
  have e0 : switchtec_diag_eye_fetch c2WitEnv 4 1 =
      some (FetchResult.ok 5 1
        [some (((65536 : Nat) : ℚ) / 65536), some (((65536 : Nat) : ℚ) / 65536),
         some (((65536 : Nat) : ℚ) / 65536), some (((65536 : Nat) : ℚ) / 65536)]) :=
    h.1
  rw [e0]
  simp

/-- C4: every loopback-set invocation issues exactly three sub-requests in
the fixed order RX→TX internal loopback, TX→RX internal loopback, LTSSM
loopback, each carrying the boolean derived from its flag in the enable
mask; a failing sub-request makes the function return that code at once, so
later sub-requests are not sent, and no further (rollback) request touches
the earlier ones. -/
theorem c4_loopback_set_sequencing (env : Nat → Int)
    (portId enable speed : Nat) :
    (env 0 ≠ 0 →
      switchtec_diag_loopback_set env portId enable speed =
        (env 0, [LoopbackReq.intLoopback portId LoopType.rxToTx
          ((enable &&& SWITCHTEC_DIAG_LOOPBACK_RX_TO_TX) != 0)])) ∧
    (env 0 = 0 → env 1 ≠ 0 →
      switchtec_diag_loopback_set env portId enable speed =
        (env 1, [LoopbackReq.intLoopback portId LoopType.rxToTx
          ((enable &&& SWITCHTEC_DIAG_LOOPBACK_RX_TO_TX) != 0),
         LoopbackReq.intLoopback portId LoopType.txToRx
          ((enable &&& SWITCHTEC_DIAG_LOOPBACK_TX_TO_RX) != 0)])) ∧
    (env 0 = 0 → env 1 = 0 →
      (switchtec_diag_loopback_set env portId enable speed).2 =
        [LoopbackReq.intLoopback portId LoopType.rxToTx
          ((enable &&& SWITCHTEC_DIAG_LOOPBACK_RX_TO_TX) != 0),
         LoopbackReq.intLoopback portId LoopType.txToRx
          ((enable &&& SWITCHTEC_DIAG_LOOPBACK_TX_TO_RX) != 0),
         LoopbackReq.ltssmLoopback portId
          ((enable &&& SWITCHTEC_DIAG_LOOPBACK_LTSSM) != 0) speed] ∧
      (env 2 ≠ 0 →
        (switchtec_diag_loopback_set env portId enable speed).1 = env 2) ∧
      (env 2 = 0 →
        (switchtec_diag_loopback_set env portId enable speed).1 = 0)) := by
  refine ⟨?_, ?_, ?_⟩
  · intro h0
    simp [switchtec_diag_loopback_set, h0]
  · intro h0 h1
    simp [switchtec_diag_loopback_set, h0, h1]
  · intro h0 h1
    by_cases h2 : env 2 = 0 <;>
      simp [switchtec_diag_loopback_set, h0, h1, h2]

/-- C4 (witness): with enable flags requesting only RX→TX and the second
command failing with `-7`, exactly two requests go out — RX→TX with enable
true, then TX→RX with enable false — the LTSSM request is never sent, and
the result is the second command's error. -/
theorem c4_loopback_set_sequencing_witness :
    switchtec_diag_loopback_set c4WitEnv 2 SWITCHTEC_DIAG_LOOPBACK_RX_TO_TX 3 =
      (-7, [LoopbackReq.intLoopback 2 LoopType.rxToTx true,
            LoopbackReq.intLoopback 2 LoopType.txToRx false]) := by
  have h := (c4_loopback_set_sequencing c4WitEnv 2
    SWITCHTEC_DIAG_LOOPBACK_RX_TO_TX 3).2.1 rfl (by decide)
  exact h.trans (by decide)

/-- C5: in the Gen4 LTSSM dump with clamped request count `n`, a single
chunk call of size `n` at index 0 is issued when `n ≤ 126`; otherwise
exactly two chunk calls are issued, of size 126 at index 0 and size
`n - 126` at index 126 (the second presupposes the first succeeded). -/
theorem c5_gen4_chunk_split (env : Gen4Env) (port count : Nat)
    (h0 : env.ret 0 = 0) (h1 : env.ret 1 = 0)
    (h2 : 126 < gen4ClampedCount env count → env.ret 2 = 0) :
    dumpCalls (switchtec_diag_ltssm_log_gen4 env port count).trace =
      if gen4ClampedCount env count ≤ 126 then
        [(0, gen4ClampedCount env count)]
      else
        [(0, 126), (126, gen4ClampedCount env count - 126)] := by
  by_cases hn : gen4ClampedCount env count ≤ 126
  · by_cases hr2 : env.ret 2 = 0 <;>
      simp [switchtec_diag_ltssm_log_gen4, h0, h1, hn, hr2, dumpCalls]
  · have hr2 := h2 (Nat.lt_of_not_le hn)
    by_cases hr3 : env.ret 3 = 0 <;>
      simp [switchtec_diag_ltssm_log_gen4, h0, h1, hn, hr2, hr3, dumpCalls]

/-- C5 (witness): requesting 200 entries (status reports 255 available, so
the clamped count stays 200) issues exactly the chunk calls `(0, 126)` and
`(126, 74)` in that order; requesting 50 entries issues exactly `(0, 50)`. -/
theorem c5_gen4_chunk_split_witness :
    dumpCalls (switchtec_diag_ltssm_log_gen4 c5WitEnv 0 200).trace =
      [(0, 126), (126, 74)] ∧
    dumpCalls (switchtec_diag_ltssm_log_gen4 c5WitEnv 0 50).trace =
      [(0, 50)] := by
  have h200 := c5_gen4_chunk_split c5WitEnv 0 200 rfl rfl (fun _ => rfl)
  have h50 := c5_gen4_chunk_split c5WitEnv 0 50 rfl rfl
    (fun h => absurd h (by decide))
  exact ⟨h200.trans (by decide), h50.trans (by decide)⟩

theorem dumpCalls_freeze_cons (p f : Nat) (l : List LtssmReq) :
    dumpCalls (LtssmReq.freeze p f :: l) = dumpCalls l := rfl

theorem dumpCalls_status_cons (p : Nat) (l : List LtssmReq) :
    dumpCalls (LtssmReq.status p :: l) = dumpCalls l := rfl

/-- C6: in the Gen5 LTSSM dump with clamped request count `n`, when every
chunk call succeeds, the dump requests issued are exactly the spec-side
schedule — chunks of size `min remaining MAX_LOG_READ` at strictly
increasing indices until the count is exhausted — and the number of decoded
entries equals `n`. -/
theorem c6_gen5_chunked_dump (env : Gen5Env) (port count : Nat)
    (hall : ∀ k, env.ret k = 0) :
    dumpCalls (switchtec_diag_ltssm_log_gen5 env port count).trace =
      chunkSchedule (gen5ClampedCount env count) 0 (gen5ClampedCount env count) ∧
    (switchtec_diag_ltssm_log_gen5 env port count).entries.length =
      gen5ClampedCount env count := by
  have h0 := hall 0
  have h1 := hall 1
  have hl := gen5_loop_ok env port hall (gen5ClampedCount env count) 2 0
    (gen5ClampedCount env count) le_rfl
  constructor
  · simp [switchtec_diag_ltssm_log_gen5, h0, h1, dumpCalls_freeze_cons,
      dumpCalls_status_cons, dumpCalls_append, hl.1, dumpCalls]
  · simp [switchtec_diag_ltssm_log_gen5, h0, h1, hl.2]

/-- C6 (witness): requesting 130 entries (status reports 200 available, so
the clamped count stays 130) issues chunk calls of sizes 63, 63 and 4 at
indices 0, 63 and 126, in that order, and 130 entries are decoded. -/
theorem c6_gen5_chunked_dump_witness :
    dumpCalls (switchtec_diag_ltssm_log_gen5 c6WitEnv 0 130).trace =
      [(0, 63), (63, 63), (126, 4)] ∧
    (switchtec_diag_ltssm_log_gen5 c6WitEnv 0 130).entries.length = 130 := by
  have h := c6_gen5_chunked_dump c6WitEnv 0 130 (fun _ => rfl)
  exact ⟨h.1.trans (by decide), h.2.trans (by decide)⟩

/-- C7: a raw-mode eye pixel equals `errors / samples`, each count assembled
from its low/high 32-bit wire fields into the 64-bit value `hi * 2^32 + lo`,
and is not-a-number (modelled `none`) exactly when the assembled sample
count is zero; a ratio-mode eye pixel equals `wire_u32 / 65536`; a Gen5 BER
phase value equals `wire_u64 / 2^48`. -/
theorem c7_numeric_codecs (p : RawPix) (u v : Nat)
    (he1 : p.errLo < 4294967296) (he2 : p.errHi < 4294967296)
    (hs1 : p.sampLo < 4294967296) (hs2 : p.sampHi < 4294967296)
    (hu : u < 4294967296) (hv : v < 18446744073709551616) :
    (rawPixelVal p = none ↔ p.sampHi * 4294967296 + p.sampLo = 0) ∧
    (p.sampHi * 4294967296 + p.sampLo ≠ 0 →
      rawPixelVal p =
        some (((p.errHi * 4294967296 + p.errLo : Nat) : ℚ) /
          ((p.sampHi * 4294967296 + p.sampLo : Nat) : ℚ))) ∧
    ratioPixelVal u = (u : ℚ) / 65536 ∧
    berVal v = (v : ℚ) / 2 ^ 48 := by
  have hsamp := hi_lo_to_uint64_eq hs1 hs2
  have herr := hi_lo_to_uint64_eq he1 he2
  refine ⟨?_, ?_, ?_, ?_⟩
  · simp only [rawPixelVal, hsamp]
    by_cases hz : p.sampHi * 4294967296 + p.sampLo = 0 <;> simp [hz]
  · intro hnz
    simp only [rawPixelVal, hsamp, herr]
    simp [hnz]
  · unfold ratioPixelVal
    rw [Nat.mod_eq_of_lt hu]
  · unfold berVal
    rw [Nat.mod_eq_of_lt hv]
    norm_num

/-- C7 (witness): errors 6 with samples 1 decodes to 6; samples 0 decodes to
not-a-number; ratio word 65536 decodes to 1; BER word `2^48` decodes to 1. -/
theorem c7_numeric_codecs_witness :
    rawPixelVal ⟨6, 0, 1, 0⟩ = some 6 ∧ rawPixelVal ⟨6, 0, 0, 0⟩ = none ∧
    ratioPixelVal 65536 = 1 ∧ berVal 281474976710656 = 1 := by
  have h := c7_numeric_codecs ⟨6, 0, 1, 0⟩ 65536 281474976710656
    (by decide) (by decide) (by decide) (by decide) (by decide) (by decide)
  have h0 := c7_numeric_codecs ⟨6, 0, 0, 0⟩ 65536 281474976710656
    (by decide) (by decide) (by decide) (by decide) (by decide) (by decide)
  refine ⟨?_, ?_, ?_, ?_⟩
  · have h2 := h.2.1 (by decide)
    rw [h2]
    simp
  · exact h0.1.mpr (by decide)
  · rw [h.2.2.1]
    simp
  · rw [h.2.2.2]
    norm_num

/-- C8: invoking any of the three equalization dispatchers on a device
handle that is neither Gen4 nor Gen5 returns the initial `-1` failure with
an empty request trace — no request is issued on the command channel —
regardless of what the generation strategies would do. -/
theorem c8_eq_unsupported_generation (dev : SwitchtecGen)
    (a b c d e f : Int × List MrpcReq)
    (h4 : switchtec_is_gen4 dev = false) (h5 : switchtec_is_gen5 dev = false) :
    switchtec_diag_port_eq_tx_coeff dev a b = (-1, []) ∧
    switchtec_diag_port_eq_tx_table dev c d = (-1, []) ∧
    switchtec_diag_port_eq_tx_fslf dev e f = (-1, []) := by
  simp [switchtec_diag_port_eq_tx_coeff, switchtec_diag_port_eq_tx_table,
    switchtec_diag_port_eq_tx_fslf, h4, h5]

/-- C8 (witness): on an unknown-generation handle all three dispatchers
return `-1` and issue no request, whatever the strategies would return. -/
theorem c8_eq_unsupported_generation_witness :
    switchtec_diag_port_eq_tx_coeff SwitchtecGen.unknown
      (7, [⟨1, 2⟩]) (8, [⟨3, 4⟩]) = (-1, []) ∧
    switchtec_diag_port_eq_tx_table SwitchtecGen.unknown
      (7, [⟨1, 2⟩]) (8, [⟨3, 4⟩]) = (-1, []) ∧
    switchtec_diag_port_eq_tx_fslf SwitchtecGen.unknown
      (7, [⟨1, 2⟩]) (8, [⟨3, 4⟩]) = (-1, []) :=
  c8_eq_unsupported_generation SwitchtecGen.unknown _ _ _ _ _ _ rfl rfl

/-- C9 (counterexample): the claim says the described busy-then-done fetch
with the response lane mask selecting lane 2 reports `lane_id = 2`.  With
mask word 0 equal to 4 (bit 2 set, i.e. lane 2) the code reports
`ffs(4) = 3`, not 2: `ffs` counts bit positions starting at 1. -/
theorem c9_counterexample :
    switchtec_diag_eye_fetch c9Env 10 2 = some (FetchResult.ok 10 3 c9Pixels) ∧
    (∀ px, switchtec_diag_eye_fetch c9Env 10 2 ≠
      some (FetchResult.ok 10 2 px)) := by
  have e0 : switchtec_diag_eye_fetch c9Env 10 2 =
      some (FetchResult.ok 10 3
        (List.replicate 10 (some (((65536 : Nat) : ℚ) / 65536)))) := rfl
  constructor
  · rw [e0]
    simp [c9Pixels]
  · intro px hpx
    rw [e0] at hpx
    simp only [Option.some.injEq, FetchResult.ok.injEq] at hpx
    exact absurd hpx.2.1 (by decide)

/-- C9 (amended): the busy-then-done ratio-mode fetch (first response busy
with status 1, second successful with `data_count = 10`, lane-mask word 0
with bit 2 set for lane 2, buffer capacity 10) retries after the busy
response — with no remaining retry budget the fetch does not complete — and
then decodes exactly 10 ratio pixels, reporting `lane_id = ffs(4) = 3`, the
1-based position of the first nonzero bit across the 4-word response lane
mask. -/
theorem c9_eye_fetch_busy_retry :
    switchtec_diag_eye_fetch c9Env 10 2 =
      some (FetchResult.ok 10 (ffs 4) c9Pixels) ∧
    ffs 4 = 3 ∧ c9Pixels.length = 10 ∧
    switchtec_diag_eye_fetch c9Env 10 1 = none := by
  refine ⟨?_, by decide, by decide, rfl⟩
  have e0 : switchtec_diag_eye_fetch c9Env 10 2 =
      some (FetchResult.ok 10 (ffs 4)
        (List.replicate 10 (some (((65536 : Nat) : ℚ) / 65536)))) := rfl
  rw [e0]
  simp [c9Pixels]

/-- C10: in the Gen5 LTSSM retrieval, when the dump chunk call fails after a
successful freeze and status query, the function still sends the unfreeze
request and returns its status as the overall result (so a dump failure
followed by a successful unfreeze is reported as overall success), while
`*log_count` keeps the full clamped count even though no entry was written
to the output array. -/
theorem c10_gen5_dump_failure_masked (env : Gen5Env) (port count : Nat)
    (h0 : env.ret 0 = 0) (h1 : env.ret 1 = 0) (h2 : env.ret 2 ≠ 0)
    (hn : 1 ≤ gen5ClampedCount env count) :
    (switchtec_diag_ltssm_log_gen5 env port count).ret = env.ret 3 ∧
    (switchtec_diag_ltssm_log_gen5 env port count).logCount =
      gen5ClampedCount env count ∧
    (switchtec_diag_ltssm_log_gen5 env port count).entries = [] ∧
    (switchtec_diag_ltssm_log_gen5 env port count).trace =
      [LtssmReq.freeze port 1, LtssmReq.status port,
       LtssmReq.dump port 0 (min (gen5ClampedCount env count) MAX_LOG_READ),
       LtssmReq.freeze port 0] := by
  have hloop := gen5_loop_fail_first env port (gen5ClampedCount env count) 2 0
    (gen5ClampedCount env count) (by omega) (by omega) h2
  simp [switchtec_diag_ltssm_log_gen5, h0, h1, hloop]

/-- C10 (witness): freeze and status succeed (200 entries reported, request
clamped at 130), the dump chunk fails with `-5`, the unfreeze succeeds: the
overall result is 0 (success), `*log_count` is the full 130, and no entry
was written. -/
theorem c10_gen5_dump_failure_masked_witness :
    (switchtec_diag_ltssm_log_gen5 c10WitEnv 0 130).ret = 0 ∧
    (switchtec_diag_ltssm_log_gen5 c10WitEnv 0 130).logCount = 130 ∧
    (switchtec_diag_ltssm_log_gen5 c10WitEnv 0 130).entries = [] := by
  have h := c10_gen5_dump_failure_masked c10WitEnv 0 130 rfl rfl
    (by decide) (by decide)
  exact ⟨h.1.trans (by decide), h.2.1.trans (by decide), h.2.2.1⟩
